import Mathlib

set_option maxHeartbeats 1600000

/-!
Verification development for the Ready Trader Go autotrader
(src/autotrader.py).  The Python class `AutoTrader` is embedded shallowly:
its mutable attributes become the fields of `TraderState`, each callback
becomes a pure function from a state (plus the message arguments) to a new
state together with the orders it submits, and Python floats are modelled
by exact rationals (with `Real.sqrt` for `math.sqrt`).  The module-level
constants keep their Python names.
-/

/-- Order side, as in the ready_trader_go framework. -/
inductive Side
  | BUY
  | SELL
deriving DecidableEq

/-- Framework alias: `Side.ASK` denotes the sell side. -/
def Side.ASK : Side := Side.SELL

/-- Framework alias: `Side.BID` denotes the buy side. -/
def Side.BID : Side := Side.BUY

/-- Order lifespan, as in the ready_trader_go framework. -/
inductive Lifespan
  | FILL_AND_KILL
  | GOOD_FOR_DAY
deriving DecidableEq

/-- An order submitted through `send_insert_order`. -/
structure Order where
  id : ℕ
  side : Side
  price : ℤ
  volume : ℤ
  lifespan : Lifespan
deriving DecidableEq

/-- A hedge order submitted through `send_hedge_order`. -/
structure HedgeOrder where
  id : ℕ
  side : Side
  price : ℤ
  volume : ℕ
deriving DecidableEq

/-- The `self.ActiveOrders` dictionary.  Its six declared keys are the six
gate flags.  The regime-transition reset code additionally writes keys
`"LowSell"` and `"LowBuy"` (instead of `"WeakSell"`/`"WeakBuy"`); since the
key set is statically known the dictionary is modelled as a structure with
one field per key that ever occurs.  The two `Low` fields are written but
never read. -/
structure ActiveOrders where
  StrongBuy : Bool
  MediumBuy : Bool
  WeakBuy : Bool
  StrongSell : Bool
  MediumSell : Bool
  WeakSell : Bool
  LowSell : Bool
  LowBuy : Bool
deriving DecidableEq

/-- The mutable attributes of the `AutoTrader` instance.  `order_ids` holds
the next value of the `itertools.count(1)` counter.  Python lists of floats
become lists of rationals; the two `set()` attributes become finite sets. -/
structure TraderState where
  order_ids : ℕ
  bids : Finset ℕ
  asks : Finset ℕ
  ask_id : ℕ
  ask_price : ℤ
  bid_id : ℕ
  bid_price : ℤ
  position : ℤ
  future_price : List ℚ
  etf_price : List ℚ
  ratios : List ℚ
  ratios_sum : ℚ
  standard_deviation_sum : ℚ
  BuyingTroph : Bool
  SellingTroph : Bool
  ActiveOrders : ActiveOrders
deriving DecidableEq

def LOT_SIZE : ℤ := 10

def POSITION_LIMIT : ℤ := 100

def TICK_SIZE_IN_CENTS : ℤ := 100

/-- Modelled from the spec: `MINIMUM_BID` is imported by src/autotrader.py
from the ready_trader_go framework (not in src/); the spec calls the derived
hedge price "the minimum representable bid price, rounded to the nearest
tick".  The framework value is 1. -/
def MINIMUM_BID : ℤ := 1

/-- Modelled from the spec: `MAXIMUM_ASK` is imported by src/autotrader.py
from the ready_trader_go framework (not in src/); the spec calls the derived
hedge price "the maximum representable ask price rounded to tick".  The
framework value is 2^31 - 1. -/
def MAXIMUM_ASK : ℤ := 2 ^ 31 - 1

def MIN_BID_NEAREST_TICK : ℤ :=
  (MINIMUM_BID + TICK_SIZE_IN_CENTS).fdiv TICK_SIZE_IN_CENTS * TICK_SIZE_IN_CENTS

def MAX_ASK_NEAREST_TICK : ℤ :=
  MAXIMUM_ASK.fdiv TICK_SIZE_IN_CENTS * TICK_SIZE_IN_CENTS

/-- `STRONG_INDICATOR = 2`.  The z-score thresholds are stated generically
over a linear ordered field: the handlers are used at `α := ℚ` in the
theorems and at `α := ℝ` (where the z-score involves a square root) inside
the full order-book handler. -/
def STRONG_INDICATOR {α : Type} [LinearOrderedField α] : α := 2

/-- `MEDIUM_INDICATOR = 1.5`. -/
def MEDIUM_INDICATOR {α : Type} [LinearOrderedField α] : α := 3 / 2

/-- `WEAK_INDICATOR = 1`. -/
def WEAK_INDICATOR {α : Type} [LinearOrderedField α] : α := 1

/-- Python's `int()` conversion truncates toward zero. -/
def pyInt {α : Type} [LinearOrderedField α] [FloorRing α] (q : α) : ℤ :=
  if q < 0 then ⌈q⌉ else ⌊q⌋

/-- Lines 174-186: the tier is the highest indicator cleared by `|zscore|`,
tested in descending order.  (In the source this value is only computed
under the guard `abs(zscore) >= WEAK_INDICATOR`; the final `else` branch
corresponds to that guard holding.) -/
def signal_strength {α : Type} [LinearOrderedField α] (z : α) : α :=
  if STRONG_INDICATOR ≤ |z| then STRONG_INDICATOR
  else if MEDIUM_INDICATOR ≤ |z| then MEDIUM_INDICATOR
  else WEAK_INDICATOR

/-- Lines 177-188: `K = LOT_SIZE / WEAK_INDICATOR`; `VolumeToBuy` is
`int(K * signal_strength)`. -/
def VolumeToBuy {α : Type} [LinearOrderedField α] [FloorRing α] (z : α) : ℤ :=
  pyInt ((LOT_SIZE : α) / WEAK_INDICATOR * signal_strength z)

/-- Line 193: `price_adjustment = -(self.position // LOT_SIZE) * TICK_SIZE_IN_CENTS`
(Python `//` is floor division, `Int.fdiv`). -/
def price_adjustment (position : ℤ) : ℤ :=
  -(position.fdiv LOT_SIZE) * TICK_SIZE_IN_CENTS

/-- Line 194: `new_ask_price = ask_prices[0] + price_adjustment if ask_prices[0] != 0 else 0`. -/
def new_ask_price (position ask0 : ℤ) : ℤ :=
  if ask0 ≠ 0 then ask0 + price_adjustment position else 0

/-- Line 195: `new_bid_price = bid_prices[0] + price_adjustment if bid_prices[0] != 0 else 0`. -/
def new_bid_price (position bid0 : ℤ) : ℤ :=
  if bid0 ≠ 0 then bid0 + price_adjustment position else 0

/-- Lines 153-167: the trough (regime) transition with its gate-flag resets.
Note the source writes dictionary keys `"LowSell"`/`"LowBuy"` in the reset,
not `"WeakSell"`/`"WeakBuy"`. -/
def troughUpdate {α : Type} [LinearOrderedField α] (s : TraderState) (z : α) : TraderState :=
  if z < 0 ∧ s.SellingTroph = true then
    { s with BuyingTroph := true, SellingTroph := false,
             ActiveOrders := { s.ActiveOrders with
                               StrongSell := false, MediumSell := false, LowSell := false } }
  else if z > 0 ∧ s.BuyingTroph = true then
    { s with SellingTroph := true, BuyingTroph := false,
             ActiveOrders := { s.ActiveOrders with
                               StrongBuy := false, MediumBuy := false, LowBuy := false } }
  else s

/-- Lines 219-225: submit a buy order: draw a fresh id, record it as the
outstanding bid, remember the price, add the id to `bids`. -/
def buyOrderAt (s : TraderState) (vol : ℤ) (bid0 : ℤ) : TraderState × Option Order :=
  ({ s with bid_id := s.order_ids,
            bid_price := new_bid_price s.position bid0,
            order_ids := s.order_ids + 1,
            bids := insert s.order_ids s.bids },
   some { id := s.order_ids, side := Side.BUY, price := new_bid_price s.position bid0,
          volume := vol, lifespan := Lifespan.FILL_AND_KILL })

/-- Lines 244-250: submit a sell order: draw a fresh id, record it as the
outstanding ask, remember the price, add the id to `asks`. -/
def sellOrderAt (s : TraderState) (vol : ℤ) (ask0 : ℤ) : TraderState × Option Order :=
  ({ s with ask_id := s.order_ids,
            ask_price := new_ask_price s.position ask0,
            order_ids := s.order_ids + 1,
            asks := insert s.order_ids s.asks },
   some { id := s.order_ids, side := Side.SELL, price := new_ask_price s.position ask0,
          volume := vol, lifespan := Lifespan.FILL_AND_KILL })

/-- Lines 171-250: the tier/gate logic and order submission.  Each of the six
branches corresponds to one arm of the source's cascade; `orderSend` becomes
true exactly in these branches, so the flag update and the submission are
merged. -/
def gateUpdate {α : Type} [LinearOrderedField α] [FloorRing α]
    (s : TraderState) (z : α) (ask0 bid0 : ℤ) : TraderState × Option Order :=
  if WEAK_INDICATOR ≤ |z| then
    if s.BuyingTroph = true then
      if signal_strength z = STRONG_INDICATOR ∧ s.ActiveOrders.StrongBuy = false then
        buyOrderAt { s with ActiveOrders := { s.ActiveOrders with StrongBuy := true } }
          (VolumeToBuy z) bid0
      else if signal_strength z = MEDIUM_INDICATOR ∧ s.ActiveOrders.MediumBuy = false then
        buyOrderAt { s with ActiveOrders := { s.ActiveOrders with MediumBuy := true } }
          (VolumeToBuy z) bid0
      else if signal_strength z = WEAK_INDICATOR ∧ s.ActiveOrders.WeakBuy = false then
        buyOrderAt { s with ActiveOrders := { s.ActiveOrders with WeakBuy := true } }
          (VolumeToBuy z) bid0
      else (s, none)
    else if s.SellingTroph = true then
      if signal_strength z = STRONG_INDICATOR ∧ s.ActiveOrders.StrongSell = false then
        sellOrderAt { s with ActiveOrders := { s.ActiveOrders with StrongSell := true } }
          (VolumeToBuy z) ask0
      else if signal_strength z = MEDIUM_INDICATOR ∧ s.ActiveOrders.MediumSell = false then
        sellOrderAt { s with ActiveOrders := { s.ActiveOrders with MediumSell := true } }
          (VolumeToBuy z) ask0
      else if signal_strength z = WEAK_INDICATOR ∧ s.ActiveOrders.WeakSell = false then
        sellOrderAt { s with ActiveOrders := { s.ActiveOrders with WeakSell := true } }
          (VolumeToBuy z) ask0
      else (s, none)
    else (s, none)
  else (s, none)

/-- Lines 153-250: one complete signal-evaluation step for a given z-score:
the trough transition followed by the gate/order logic. -/
def zStep {α : Type} [LinearOrderedField α] [FloorRing α]
    (s : TraderState) (z : α) (ask0 bid0 : ℤ) : TraderState × Option Order :=
  gateUpdate (troughUpdate s z) z ask0 bid0

/-- Lines 136-145: append the new ratio, accumulate `ratios_sum`, compute the
mean as `ratios_sum / len(ratios)`, and accumulate the squared deviation from
that (updated) mean.  Returns the new state together with the mean. -/
def statsUpdate (s : TraderState) (x : ℚ) : TraderState × ℚ :=
  let s2 := { s with ratios := s.ratios ++ [x], ratios_sum := s.ratios_sum + x }
  let mean : ℚ := s2.ratios_sum / (s2.ratios.length : ℚ)
  ({ s2 with standard_deviation_sum := s2.standard_deviation_sum + (x - mean) ^ 2 }, mean)

/-- Line 147: `standard_deviation = math.sqrt(standard_deviation_sum / len(ratios))`. -/
noncomputable def standard_deviation (ssd : ℚ) (count : ℕ) : ℝ :=
  Real.sqrt ((ssd : ℝ) / (count : ℝ))

/-- Line 115: `midpoint_price = (bid_prices[0] + ask_prices[0]) / 200.0`. -/
def newMidpoint (bid0 ask0 : ℤ) : ℚ :=
  ((bid0 : ℚ) + (ask0 : ℚ)) / 200

/-- Lines 119-128: record the new midpoint under the instrument's price list
(instrument 0 is the future, anything else the ETF). -/
def appendPrice (s : TraderState) (instrument : ℕ) (m : ℚ) : TraderState :=
  if instrument = 0 then { s with future_price := s.future_price ++ [m] }
  else { s with etf_price := s.etf_price ++ [m] }

/-- Line 134: `new_ratio = future_price[-1] / etf_price[-1]`.  Returns `none`
when either list is empty (Python `IndexError`) or the ETF midpoint is zero
(Python `ZeroDivisionError`); both exceptions are caught by the handler's
`except` clause. -/
def newRatioOf (s : TraderState) : Option ℚ :=
  match s.future_price.getLast?, s.etf_price.getLast? with
  | some f, some e => if e = 0 then none else some (f / e)
  | _, _ => none

/-- Lines 98-254: the order-book callback.  The body of the Python `try`
block is modelled directly; each exception site becomes an early return with
exactly the state mutated up to that point (the `except` clause only prints).
The z-score is real-valued because of the square root; all its downstream
uses are order comparisons. -/
noncomputable def on_order_book_update_message (s : TraderState) (instrument : ℕ)
    (ask_prices bid_prices : List ℤ) : TraderState × Option Order :=
  match bid_prices.head?, ask_prices.head? with
  | some bid0, some ask0 =>
    let s1 := appendPrice s instrument (newMidpoint bid0 ask0)
    match newRatioOf s1 with
    | some x =>
      let s3 := (statsUpdate s1 x).1
      let mean := (statsUpdate s1 x).2
      if standard_deviation s3.standard_deviation_sum s3.ratios.length = 0 then
        (s3, none)
      else
        zStep s3
          (((x - mean : ℚ) : ℝ) / standard_deviation s3.standard_deviation_sum s3.ratios.length)
          ask0 bid0
    | none => (s1, none)
  | _, _ => (s, none)

/-- Lines 256-270: the fill callback.  A fill for a tracked bid increases the
position and hedges with a sell at `MIN_BID_NEAREST_TICK`; a fill for a
tracked ask decreases the position and hedges with a buy at
`MAX_ASK_NEAREST_TICK`.  The hedge id is drawn from the shared counter. -/
def on_order_filled_message (s : TraderState) (client_order_id : ℕ) (price : ℤ)
    (volume : ℕ) : TraderState × Option HedgeOrder :=
  if client_order_id ∈ s.bids then
    ({ s with position := s.position + volume, order_ids := s.order_ids + 1 },
     some { id := s.order_ids, side := Side.ASK, price := MIN_BID_NEAREST_TICK, volume := volume })
  else if client_order_id ∈ s.asks then
    ({ s with position := s.position - volume, order_ids := s.order_ids + 1 },
     some { id := s.order_ids, side := Side.BID, price := MAX_ASK_NEAREST_TICK, volume := volume })
  else (s, none)

/-- Lines 272-293: the order-status callback.  On zero remaining volume the
matching tracked id (bid first, else ask) is cleared and the id is discarded
from both membership sets. -/
def on_order_status_message (s : TraderState) (client_order_id fill_volume remaining_volume : ℕ)
    (fees : ℤ) : TraderState :=
  if remaining_volume = 0 then
    let s1 :=
      if client_order_id = s.bid_id then { s with bid_id := 0 }
      else if client_order_id = s.ask_id then { s with ask_id := 0 }
      else s
    { s1 with bids := s1.bids.erase client_order_id, asks := s1.asks.erase client_order_id }
  else s

/-- Lines 78-86: the error callback.  For a nonzero id that is tracked in
`bids` or `asks` it synthesizes a zero-remaining-volume status message;
otherwise it only logs. -/
def on_error_message (s : TraderState) (client_order_id : ℕ) : TraderState :=
  if client_order_id ≠ 0 ∧ (client_order_id ∈ s.bids ∨ client_order_id ∈ s.asks) then
    on_order_status_message s client_order_id 0 0 0
  else s

/-- Lines 88-96: the hedge-fill callback only logs; no state changes. -/
def on_hedge_filled_message (s : TraderState) (client_order_id : ℕ) (price : ℤ)
    (volume : ℕ) : TraderState :=
  s

/-- Lines 39-76 (`__init__`): the initial state. -/
def initialState : TraderState where
  order_ids := 1
  bids := ∅
  asks := ∅
  ask_id := 0
  ask_price := 0
  bid_id := 0
  bid_price := 0
  position := 0
  future_price := []
  etf_price := []
  ratios := []
  ratios_sum := 0
  standard_deviation_sum := 0
  BuyingTroph := true
  SellingTroph := false
  ActiveOrders :=
    { StrongBuy := false, MediumBuy := false, WeakBuy := false,
      StrongSell := false, MediumSell := false, WeakSell := false,
      LowSell := false, LowBuy := false }

/-- Run a sequence of signal-evaluation steps; each list element carries the
z-score together with the best ask and bid prices of that event.  Returns
the list of (post-state, submitted order) pairs. -/
def runTS : TraderState → List (ℚ × ℤ × ℤ) → List (TraderState × Option Order)
  | _, [] => []
  | s, e :: es =>
    zStep s e.1 e.2.1 e.2.2 :: runTS (zStep s e.1 e.2.1 e.2.2).1 es

/-- The three signal-strength tiers. -/
inductive Tier
  | Strong
  | Medium
  | Weak
deriving DecidableEq

/-- The indicator constant of each tier. -/
def tierStrength : Tier → ℚ
  | Tier.Strong => STRONG_INDICATOR
  | Tier.Medium => MEDIUM_INDICATOR
  | Tier.Weak => WEAK_INDICATOR

/-- The order volume of each tier, as the source computes it. -/
def tierVolume (t : Tier) : ℤ :=
  VolumeToBuy (tierStrength t)

/-- The gate flag guarding a given side and tier. -/
def flagOf : Side → Tier → ActiveOrders → Bool
  | Side.BUY, Tier.Strong, f => f.StrongBuy
  | Side.BUY, Tier.Medium, f => f.MediumBuy
  | Side.BUY, Tier.Weak, f => f.WeakBuy
  | Side.SELL, Tier.Strong, f => f.StrongSell
  | Side.SELL, Tier.Medium, f => f.MediumSell
  | Side.SELL, Tier.Weak, f => f.WeakSell

/-- Whether a step's output is an order with the given side and volume. -/
def emitsAt (σ : Side) (v : ℤ) (r : TraderState × Option Order) : Bool :=
  match r.2 with
  | some ord => decide (ord.side = σ ∧ ord.volume = v)
  | none => false

/-- Number of submitted orders in a run that have the given side and volume. -/
def ordersAt (σ : Side) (v : ℤ) (l : List (TraderState × Option Order)) : ℕ :=
  l.countP (emitsAt σ v)

/-! ### Helper lemmas about the signal classifier -/

lemma signal_strength_of_strong {z : ℚ} (h : STRONG_INDICATOR ≤ |z|) :
    signal_strength z = STRONG_INDICATOR := by
  simp [signal_strength, h]

lemma signal_strength_of_medium {z : ℚ} (h1 : MEDIUM_INDICATOR ≤ |z|)
    (h2 : |z| < STRONG_INDICATOR) : signal_strength z = MEDIUM_INDICATOR := by
  simp [signal_strength, h1, not_le.mpr h2]

lemma signal_strength_of_weak {z : ℚ} (h : |z| < MEDIUM_INDICATOR) :
    signal_strength z = WEAK_INDICATOR := by
  have h2 : ¬ STRONG_INDICATOR ≤ |z| := by
    simp only [STRONG_INDICATOR, MEDIUM_INDICATOR] at *
    intro hc
    linarith
  simp [signal_strength, h2, not_le.mpr h]

lemma VolumeToBuy_eq_twenty {z : ℚ} (h : signal_strength z = STRONG_INDICATOR) :
    VolumeToBuy z = 20 := by
  rw [VolumeToBuy, h]
  norm_num [pyInt, STRONG_INDICATOR, WEAK_INDICATOR, LOT_SIZE]

lemma VolumeToBuy_eq_fifteen {z : ℚ} (h : signal_strength z = MEDIUM_INDICATOR) :
    VolumeToBuy z = 15 := by
  rw [VolumeToBuy, h]
  norm_num [pyInt, MEDIUM_INDICATOR, WEAK_INDICATOR, LOT_SIZE]

lemma VolumeToBuy_eq_ten {z : ℚ} (h : signal_strength z = WEAK_INDICATOR) :
    VolumeToBuy z = 10 := by
  rw [VolumeToBuy, h]
  norm_num [pyInt, WEAK_INDICATOR, LOT_SIZE]

lemma signal_strength_cases {z : ℚ} :
    signal_strength z = STRONG_INDICATOR ∨ signal_strength z = MEDIUM_INDICATOR ∨
      signal_strength z = WEAK_INDICATOR := by
  unfold signal_strength
  split_ifs <;> simp

lemma tierVolume_strong : tierVolume Tier.Strong = 20 := by
  apply VolumeToBuy_eq_twenty
  apply signal_strength_of_strong
  rw [tierStrength, STRONG_INDICATOR, abs_of_pos] <;> norm_num

lemma tierVolume_medium : tierVolume Tier.Medium = 15 := by
  apply VolumeToBuy_eq_fifteen
  apply signal_strength_of_medium <;>
    rw [tierStrength, MEDIUM_INDICATOR, abs_of_pos] <;>
      norm_num [MEDIUM_INDICATOR, STRONG_INDICATOR]

lemma tierVolume_weak : tierVolume Tier.Weak = 10 := by
  apply VolumeToBuy_eq_ten
  apply signal_strength_of_weak
  rw [tierStrength, WEAK_INDICATOR, abs_of_pos] <;>
    norm_num [MEDIUM_INDICATOR]

/-! ### Helper lemmas about the trough and gate machinery -/

lemma gateUpdate_regime {α : Type} [LinearOrderedField α] [FloorRing α]
    (s : TraderState) (z : α) (a b : ℤ) :
    (gateUpdate s z a b).1.BuyingTroph = s.BuyingTroph ∧
      (gateUpdate s z a b).1.SellingTroph = s.SellingTroph := by
  unfold gateUpdate buyOrderAt sellOrderAt
  split_ifs <;> simp

lemma troughUpdate_id_of_regime_eq {α : Type} [LinearOrderedField α]
    {s : TraderState} {z : α}
    (h1 : (troughUpdate s z).BuyingTroph = s.BuyingTroph)
    (h2 : (troughUpdate s z).SellingTroph = s.SellingTroph) :
    troughUpdate s z = s := by
  unfold troughUpdate at *
  split_ifs at * with ha hb
  · simp at h2
    simp [h2] at ha
  · simp at h1
    simp [h1] at hb
  · rfl

lemma gateUpdate_flag_mono {α : Type} [LinearOrderedField α] [FloorRing α]
    (σ : Side) (τ : Tier) (s : TraderState) (z : α) (a b : ℤ)
    (h : flagOf σ τ s.ActiveOrders = true) :
    flagOf σ τ (gateUpdate s z a b).1.ActiveOrders = true := by
  unfold gateUpdate buyOrderAt sellOrderAt
  split_ifs <;> cases σ <;> cases τ <;> simp_all only [flagOf]

lemma gateUpdate_emit {σ : Side} {τ : Tier} {s : TraderState} {z : ℚ} {a b : ℤ} {ord : Order}
    (h : (gateUpdate s z a b).2 = some ord) (hs : ord.side = σ)
    (hv : ord.volume = tierVolume τ) :
    flagOf σ τ s.ActiveOrders = false ∧
      flagOf σ τ (gateUpdate s z a b).1.ActiveOrders = true := by
  unfold gateUpdate buyOrderAt sellOrderAt at *
  split_ifs at * with h1 h2 h3 h4 h5 h6 h7 h8 h9
  · -- strong buy branch
    simp only [Option.some.injEq] at h
    subst h
    simp only at hs hv
    subst hs
    rw [VolumeToBuy_eq_twenty h3.1] at hv
    cases τ
    · simp [flagOf, h3.2]
    · rw [tierVolume_medium] at hv; exact absurd hv (by decide)
    · rw [tierVolume_weak] at hv; exact absurd hv (by decide)
  · -- medium buy branch
    simp only [Option.some.injEq] at h
    subst h
    simp only at hs hv
    subst hs
    rw [VolumeToBuy_eq_fifteen h4.1] at hv
    cases τ
    · rw [tierVolume_strong] at hv; exact absurd hv (by decide)
    · simp [flagOf, h4.2]
    · rw [tierVolume_weak] at hv; exact absurd hv (by decide)
  · -- weak buy branch
    simp only [Option.some.injEq] at h
    subst h
    simp only at hs hv
    subst hs
    rw [VolumeToBuy_eq_ten h5.1] at hv
    cases τ
    · rw [tierVolume_strong] at hv; exact absurd hv (by decide)
    · rw [tierVolume_medium] at hv; exact absurd hv (by decide)
    · simp [flagOf, h5.2]
  · -- strong sell branch
    simp only [Option.some.injEq] at h
    subst h
    simp only at hs hv
    subst hs
    rw [VolumeToBuy_eq_twenty h7.1] at hv
    cases τ
    · simp [flagOf, h7.2]
    · rw [tierVolume_medium] at hv; exact absurd hv (by decide)
    · rw [tierVolume_weak] at hv; exact absurd hv (by decide)
  · -- medium sell branch
    simp only [Option.some.injEq] at h
    subst h
    simp only at hs hv
    subst hs
    rw [VolumeToBuy_eq_fifteen h8.1] at hv
    cases τ
    · rw [tierVolume_strong] at hv; exact absurd hv (by decide)
    · simp [flagOf, h8.2]
    · rw [tierVolume_weak] at hv; exact absurd hv (by decide)
  · -- weak sell branch
    simp only [Option.some.injEq] at h
    subst h
    simp only at hs hv
    subst hs
    rw [VolumeToBuy_eq_ten h9.1] at hv
    cases τ
    · rw [tierVolume_strong] at hv; exact absurd hv (by decide)
    · rw [tierVolume_medium] at hv; exact absurd hv (by decide)
    · simp [flagOf, h9.2]

/-! ### Claim C2 -/

/-- A state in the selling trough with all three sell-side gate flags set. -/
def c2State : TraderState :=
  { initialState with
      BuyingTroph := false, SellingTroph := true,
      ActiveOrders := { initialState.ActiveOrders with
                        StrongSell := true, MediumSell := true, WeakSell := true } }

/-- C2: the claim states that entering `BuyingTrough` resets `StrongSell`,
`MediumSell` and `WeakSell` to `false`.  Evaluating the transition code at a
state in the selling trough with all three sell flags set and a z-score of
-1: the transition to `BuyingTrough` does occur and resets `StrongSell` and
`MediumSell`, but the third update writes the key `"LowSell"` instead of
`"WeakSell"`, so `WeakSell` remains `true`, contradicting the claim (and the
source's own comment that sell trades become possible again). -/
theorem c2_weak_flag_not_reset :
    (troughUpdate c2State (-1 : ℚ)).BuyingTroph = true ∧
      (troughUpdate c2State (-1 : ℚ)).SellingTroph = false ∧
      (troughUpdate c2State (-1 : ℚ)).ActiveOrders.StrongSell = false ∧
      (troughUpdate c2State (-1 : ℚ)).ActiveOrders.MediumSell = false ∧
      (troughUpdate c2State (-1 : ℚ)).ActiveOrders.LowSell = false ∧
      (troughUpdate c2State (-1 : ℚ)).ActiveOrders.WeakSell = true := by
  have hneg : (-1 : ℚ) < 0 := by norm_num
  simp [troughUpdate, c2State, hneg, initialState]

/-! ### Claim C6 -/

/-- C6: a fill for an id tracked in `bids` adds the volume to the position
and submits exactly one hedge sell order of the same volume at
`MIN_BID_NEAREST_TICK`; a fill for an id tracked in `asks` (and not in
`bids`; the source's `elif` gives the bid set priority) subtracts the volume
and submits exactly one hedge buy order of the same volume at
`MAX_ASK_NEAREST_TICK`. -/
theorem c6_fill_position_and_hedge :
    (∀ (s : TraderState) (id : ℕ) (p : ℤ) (v : ℕ), id ∈ s.bids →
      on_order_filled_message s id p v =
        ({ s with position := s.position + v, order_ids := s.order_ids + 1 },
         some { id := s.order_ids, side := Side.ASK, price := MIN_BID_NEAREST_TICK,
                volume := v })) ∧
    (∀ (s : TraderState) (id : ℕ) (p : ℤ) (v : ℕ), id ∉ s.bids → id ∈ s.asks →
      on_order_filled_message s id p v =
        ({ s with position := s.position - v, order_ids := s.order_ids + 1 },
         some { id := s.order_ids, side := Side.BID, price := MAX_ASK_NEAREST_TICK,
                volume := v })) := by
  refine ⟨fun s id p v h => ?_, fun s id p v h1 h2 => ?_⟩
  · simp [on_order_filled_message, h]
  · simp [on_order_filled_message, h1, h2]

/-- A state with a tracked bid order with id 5. -/
def trackedBidState : TraderState :=
  { initialState with bids := {5}, bid_id := 5, order_ids := 6 }

/-- C6 witness: evaluating the theorem at a concrete tracked bid fill. -/
theorem c6_fill_position_and_hedge_witness :
    on_order_filled_message trackedBidState 5 9900 10 =
      ({ trackedBidState with position := trackedBidState.position + 10, order_ids := trackedBidState.order_ids + 1 },
       some { id := trackedBidState.order_ids, side := Side.ASK, price := MIN_BID_NEAREST_TICK,
              volume := 10 }) :=
  c6_fill_position_and_hedge.1 trackedBidState 5 9900 10 (by decide)

/-! ### Claim C10 -/

/-- C10: a fill for an id tracked in neither set changes nothing and submits
no hedge; the fill handler never adds ids to `bids` or `asks` (so hedge ids,
which are drawn fresh from the counter and never inserted, are never in the
sets); the hedge-fill callback changes no state at all. -/
theorem c10_untracked_fill_is_noop :
    (∀ (s : TraderState) (id : ℕ) (p : ℤ) (v : ℕ), id ∉ s.bids → id ∉ s.asks →
      on_order_filled_message s id p v = (s, none)) ∧
    (∀ (s : TraderState) (id : ℕ) (p : ℤ) (v : ℕ),
      (on_order_filled_message s id p v).1.bids = s.bids ∧
        (on_order_filled_message s id p v).1.asks = s.asks) ∧
    (∀ (s : TraderState) (id : ℕ) (p : ℤ) (v : ℕ),
      on_hedge_filled_message s id p v = s) := by
  refine ⟨fun s id p v h1 h2 => ?_, fun s id p v => ?_, fun s id p v => rfl⟩
  · simp [on_order_filled_message, h1, h2]
  · unfold on_order_filled_message
    split_ifs <;> simp

/-- C10 witness: an untracked id (including any hedge id) at a concrete
state: no position change and no hedge submission. -/
theorem c10_untracked_fill_is_noop_witness :
    on_order_filled_message trackedBidState 7 9900 10 = (trackedBidState, none) :=
  c10_untracked_fill_is_noop.1 trackedBidState 7 9900 10 (by decide) (by decide)

/-! ### Claim C7 -/

/-- C7: a zero-remaining-volume status for the tracked bid id clears
`bid_id` and removes the id from both sets (same for the tracked ask id,
which the source's `elif` only clears when the id is not also the bid id);
repeating the status call changes nothing; an error notification for a
nonzero id in `bids` or `asks` produces exactly the state of a
zero-remaining status call, while an error with id 0 or an untracked id
changes no state. -/
theorem c7_status_cleanup_and_error :
    (∀ (s : TraderState) (id fv : ℕ) (fees : ℤ), s.bid_id = id →
      (on_order_status_message s id fv 0 fees).bid_id = 0 ∧
        id ∉ (on_order_status_message s id fv 0 fees).bids ∧
        id ∉ (on_order_status_message s id fv 0 fees).asks) ∧
    (∀ (s : TraderState) (id fv : ℕ) (fees : ℤ), s.ask_id = id → s.bid_id ≠ id →
      (on_order_status_message s id fv 0 fees).ask_id = 0 ∧
        id ∉ (on_order_status_message s id fv 0 fees).bids ∧
        id ∉ (on_order_status_message s id fv 0 fees).asks) ∧
    (∀ (s : TraderState) (id fv1 fv2 : ℕ) (fees1 fees2 : ℤ), id ≠ 0 →
      (s.bid_id = id → s.ask_id ≠ id) →
      on_order_status_message (on_order_status_message s id fv1 0 fees1) id fv2 0 fees2 =
        on_order_status_message s id fv1 0 fees1) ∧
    (∀ (s : TraderState) (id : ℕ), id ≠ 0 → (id ∈ s.bids ∨ id ∈ s.asks) →
      on_error_message s id = on_order_status_message s id 0 0 0) ∧
    (∀ s : TraderState, on_error_message s 0 = s) ∧
    (∀ (s : TraderState) (id : ℕ), id ∉ s.bids → id ∉ s.asks →
      on_error_message s id = s) := by
  refine ⟨fun s id fv fees h => ?_, fun s id fv fees h1 h2 => ?_,
    fun s id fv1 fv2 fees1 fees2 h0 hna => ?_, fun s id h0 hmem => ?_,
    fun s => ?_, fun s id h1 h2 => ?_⟩
  · subst h
    simp [on_order_status_message]
  · subst h1
    have hne : ¬ (s.ask_id = s.bid_id) := fun hc => h2 hc.symm
    simp [on_order_status_message, hne]
  · by_cases hb : id = s.bid_id
    · have hask : ¬ id = s.ask_id := fun hc => hna hb.symm hc.symm
      have hz : ¬ (s.bid_id = 0) := fun hc => h0 (hb.trans hc)
      have hba : ¬ (s.bid_id = s.ask_id) := fun hc => hask (hb.trans hc)
      simp [on_order_status_message, hb, hz, hba, Finset.erase_idem]
    · by_cases ha : id = s.ask_id
      · have hz : ¬ (s.ask_id = 0) := fun hc => h0 (ha.trans hc)
        have hab : ¬ (s.ask_id = s.bid_id) := fun hc => hb (ha.trans hc)
        simp [on_order_status_message, hb, ha, hz, hab, Finset.erase_idem]
      · simp [on_order_status_message, hb, ha, Finset.erase_idem]
  · simp [on_error_message, h0, hmem]
  · simp [on_error_message]
  · simp [on_error_message, h1, h2]

/-- C7 witness: evaluating the idempotence part of the theorem at a concrete
state tracking bid id 5. -/
theorem c7_status_cleanup_and_error_witness :
    on_order_status_message (on_order_status_message trackedBidState 5 0 0 0) 5 0 0 0 =
      on_order_status_message trackedBidState 5 0 0 0 :=
  c7_status_cleanup_and_error.2.2.1 trackedBidState 5 0 0 0 0 (by decide) (by decide)

/-! ### Claim C1 -/

lemma statsUpdate_fold_sums (xs : List ℚ) :
    ∀ s : TraderState,
      (List.foldl (fun t x => (statsUpdate t x).1) s xs).ratios_sum = s.ratios_sum + xs.sum ∧
        (List.foldl (fun t x => (statsUpdate t x).1) s xs).ratios.length =
          s.ratios.length + xs.length := by
  induction xs with
  | nil => intro s; simp
  | cons x xs ih =>
    intro s
    obtain ⟨hsum, hlen⟩ := ih (statsUpdate s x).1
    constructor
    · rw [List.foldl_cons, hsum]
      simp [statsUpdate]
      ring
    · rw [List.foldl_cons, hlen]
      simp [statsUpdate]
      ring

/-- C1: each new ratio sample updates the running statistics by exactly the
sequential fold of the source: the sample count (the length of `ratios`)
increases by one, `ratios_sum` increases by the sample, the mean used for
the squared-deviation accumulation is `(sum + x) / (count + 1)`, the
squared deviation from that updated mean is added to
`standard_deviation_sum`, and the standard deviation is
`sqrt(standard_deviation_sum / count)`; consequently, after any sequence of
samples from the initial state, the running mean `ratios_sum / count`
equals the arithmetic mean of all samples seen. -/
theorem c1_running_statistics :
    (∀ (s : TraderState) (x : ℚ),
      (statsUpdate s x).1.ratios = s.ratios ++ [x] ∧
        (statsUpdate s x).1.ratios.length = s.ratios.length + 1 ∧
        (statsUpdate s x).1.ratios_sum = s.ratios_sum + x ∧
        (statsUpdate s x).2 = (s.ratios_sum + x) / ((s.ratios.length : ℚ) + 1) ∧
        (statsUpdate s x).1.standard_deviation_sum =
          s.standard_deviation_sum +
            (x - (s.ratios_sum + x) / ((s.ratios.length : ℚ) + 1)) ^ 2) ∧
    (∀ (ssd : ℚ) (n : ℕ),
      standard_deviation ssd n = Real.sqrt ((ssd : ℝ) / (n : ℝ))) ∧
    (∀ xs : List ℚ,
      (List.foldl (fun t x => (statsUpdate t x).1) initialState xs).ratios_sum /
          ((List.foldl (fun t x => (statsUpdate t x).1) initialState xs).ratios.length : ℚ) =
        xs.sum / (xs.length : ℚ)) := by
  refine ⟨fun s x => ?_, fun ssd n => rfl, fun xs => ?_⟩
  · refine ⟨rfl, by simp [statsUpdate], by simp [statsUpdate], ?_, ?_⟩
    · simp [statsUpdate]
    · simp [statsUpdate]
  · obtain ⟨hsum, hlen⟩ := statsUpdate_fold_sums xs initialState
    rw [hsum, hlen]
    simp [initialState]

/-! ### Claim C5 -/

/-- C5: the classifier picks the highest threshold met, testing in
descending order: `|z| >= 2` gives the strong tier with 20 lots, else
`|z| >= 1.5` the medium tier with 15 lots, else `|z| >= 1` the weak tier
with 10 lots; each volume is the floor of `(LOT_SIZE / WEAK_INDICATOR)`
times the tier threshold; below the weak threshold nothing is classified
and the whole order-submission branch does not run. -/
theorem c5_tier_classification :
    (∀ z : ℚ, STRONG_INDICATOR ≤ |z| →
      signal_strength z = STRONG_INDICATOR ∧ VolumeToBuy z = 20) ∧
    (∀ z : ℚ, MEDIUM_INDICATOR ≤ |z| → |z| < STRONG_INDICATOR →
      signal_strength z = MEDIUM_INDICATOR ∧ VolumeToBuy z = 15) ∧
    (∀ z : ℚ, WEAK_INDICATOR ≤ |z| → |z| < MEDIUM_INDICATOR →
      signal_strength z = WEAK_INDICATOR ∧ VolumeToBuy z = 10) ∧
    (∀ z : ℚ, VolumeToBuy z = ⌊(LOT_SIZE : ℚ) / WEAK_INDICATOR * signal_strength z⌋) ∧
    (∀ (s : TraderState) (z : ℚ) (a b : ℤ), |z| < WEAK_INDICATOR →
      gateUpdate s z a b = (s, none)) := by
  refine ⟨fun z h => ?_, fun z h1 h2 => ?_, fun z h1 h2 => ?_, fun z => ?_,
    fun s z a b h => ?_⟩
  · exact ⟨signal_strength_of_strong h, VolumeToBuy_eq_twenty (signal_strength_of_strong h)⟩
  · exact ⟨signal_strength_of_medium h1 h2,
      VolumeToBuy_eq_fifteen (signal_strength_of_medium h1 h2)⟩
  · exact ⟨signal_strength_of_weak h2, VolumeToBuy_eq_ten (signal_strength_of_weak h2)⟩
  · rw [VolumeToBuy, pyInt]
    rcases signal_strength_cases (z := z) with hc | hc | hc <;>
      rw [hc] <;>
        norm_num [STRONG_INDICATOR, MEDIUM_INDICATOR, WEAK_INDICATOR, LOT_SIZE]
  · rw [gateUpdate, if_neg (not_le.mpr h)]

/-- C5 witness: evaluating the theorem at concrete z-scores in each band. -/
theorem c5_tier_classification_witness :
    (signal_strength (-2 : ℚ) = STRONG_INDICATOR ∧ VolumeToBuy (-2 : ℚ) = 20) ∧
      (signal_strength (3 / 2 : ℚ) = MEDIUM_INDICATOR ∧ VolumeToBuy (3 / 2 : ℚ) = 15) ∧
      (signal_strength (-1 : ℚ) = WEAK_INDICATOR ∧ VolumeToBuy (-1 : ℚ) = 10) ∧
      gateUpdate initialState (1 / 2 : ℚ) 100 100 = (initialState, none) :=
  ⟨c5_tier_classification.1 (-2) (by rw [abs_of_nonpos] <;> norm_num [STRONG_INDICATOR]),
   c5_tier_classification.2.1 (3 / 2)
     (by rw [abs_of_nonneg] <;> norm_num [MEDIUM_INDICATOR])
     (by rw [abs_of_nonneg] <;> norm_num [MEDIUM_INDICATOR, STRONG_INDICATOR]),
   c5_tier_classification.2.2.1 (-1)
     (by rw [abs_of_nonpos] <;> norm_num [WEAK_INDICATOR])
     (by rw [abs_of_nonpos] <;> norm_num [MEDIUM_INDICATOR, WEAK_INDICATOR]),
   c5_tier_classification.2.2.2.2 initialState (1 / 2) 100 100
     (by rw [abs_of_nonneg] <;> norm_num [WEAK_INDICATOR])⟩

/-! ### Claim C8 -/

/-- C8 counterexample: from the initial state (buying trough, no flags set),
a z-score of -2 with best bid 0 authorizes a strong buy, and the handler
submits that order at price 0 — the zero "do not quote" reference price is
never checked before submission, refuting the claim's final clause that no
order is submitted at a zero reference price. -/
theorem c8_zero_price_order_submitted :
    (zStep initialState (-2 : ℚ) 500 0).2 =
      some { id := 1, side := Side.BUY, price := 0, volume := 20,
             lifespan := Lifespan.FILL_AND_KILL } := by
  have habs : |(-2 : ℚ)| = 2 := by
    rw [abs_of_nonpos] <;> norm_num
  have hstr : signal_strength (-2 : ℚ) = STRONG_INDICATOR :=
    signal_strength_of_strong (by rw [habs, STRONG_INDICATOR])
  have hvol : VolumeToBuy (-2 : ℚ) = 20 := VolumeToBuy_eq_twenty hstr
  have htr : troughUpdate initialState (-2 : ℚ) = initialState := by
    rw [troughUpdate]
    norm_num [initialState]
  rw [zStep, htr, gateUpdate]
  rw [if_pos (by rw [habs] ; norm_num [WEAK_INDICATOR])]
  rw [if_pos (by norm_num [initialState])]
  rw [if_pos ⟨hstr, by norm_num [initialState]⟩]
  simp [buyOrderAt, new_bid_price, hvol, initialState]

/-- C8 (amended): the price adjustment is
`-(position // LOT_SIZE) * TICK_SIZE` (floor division) and is applied
identically to the bid and ask references; a best price of 0 on a side
leaves that side's reference at 0 rather than adjusted; every submitted
order is priced at the (possibly zero) reference of its side — the
submission logic itself never checks the reference for zero. -/
theorem c8_reference_prices :
    (∀ pos : ℤ, price_adjustment pos = -(pos.fdiv 10) * 100) ∧
    (∀ pos b0 : ℤ, b0 ≠ 0 → new_bid_price pos b0 = b0 + price_adjustment pos) ∧
    (∀ pos a0 : ℤ, a0 ≠ 0 → new_ask_price pos a0 = a0 + price_adjustment pos) ∧
    (∀ pos : ℤ, new_bid_price pos 0 = 0 ∧ new_ask_price pos 0 = 0) ∧
    (∀ (s : TraderState) (z : ℚ) (a b : ℤ) (ord : Order),
      (gateUpdate s z a b).2 = some ord →
        (ord.side = Side.BUY ∧ ord.price = new_bid_price s.position b) ∨
          (ord.side = Side.SELL ∧ ord.price = new_ask_price s.position a)) := by
  refine ⟨fun pos => rfl, fun pos b0 h => by simp [new_bid_price, h],
    fun pos a0 h => by simp [new_ask_price, h],
    fun pos => ⟨by simp [new_bid_price], by simp [new_ask_price]⟩,
    fun s z a b ord h => ?_⟩
  unfold gateUpdate buyOrderAt sellOrderAt at h
  split_ifs at h
  all_goals simp only [Option.some.injEq] at h
  all_goals subst h
  · exact Or.inl ⟨rfl, rfl⟩
  · exact Or.inl ⟨rfl, rfl⟩
  · exact Or.inl ⟨rfl, rfl⟩
  · exact Or.inr ⟨rfl, rfl⟩
  · exact Or.inr ⟨rfl, rfl⟩
  · exact Or.inr ⟨rfl, rfl⟩

/-- C8 witness: a nonzero best bid is adjusted by the inventory skew, a
zero best bid is left at 0. -/
theorem c8_reference_prices_witness :
    new_bid_price (-7) 10000 = 10000 + price_adjustment (-7) ∧
      new_ask_price (-7) 10100 = 10100 + price_adjustment (-7) :=
  ⟨c8_reference_prices.2.1 (-7) 10000 (by decide),
   c8_reference_prices.2.2.1 (-7) 10100 (by decide)⟩

/-! ### Claim C9 -/

/-- Frame of a quote event that takes no trading action: no order, and the
regime fields, gate flags and position are unchanged. -/
def signalFrame (s : TraderState) (r : TraderState × Option Order) : Prop :=
  r.2 = none ∧ r.1.BuyingTroph = s.BuyingTroph ∧ r.1.SellingTroph = s.SellingTroph ∧
    r.1.ActiveOrders = s.ActiveOrders ∧ r.1.position = s.position

lemma statsUpdate_frame (s : TraderState) (x : ℚ) :
    (statsUpdate s x).1.BuyingTroph = s.BuyingTroph ∧
      (statsUpdate s x).1.SellingTroph = s.SellingTroph ∧
      (statsUpdate s x).1.ActiveOrders = s.ActiveOrders ∧
      (statsUpdate s x).1.position = s.position := by
  simp [statsUpdate]

lemma appendPrice_frame (s : TraderState) (i : ℕ) (m : ℚ) :
    (appendPrice s i m).BuyingTroph = s.BuyingTroph ∧
      (appendPrice s i m).SellingTroph = s.SellingTroph ∧
      (appendPrice s i m).ActiveOrders = s.ActiveOrders ∧
      (appendPrice s i m).position = s.position ∧
      (appendPrice s i m).ratios = s.ratios ∧
      (appendPrice s i m).ratios_sum = s.ratios_sum ∧
      (appendPrice s i m).standard_deviation_sum = s.standard_deviation_sum := by
  unfold appendPrice
  split_ifs <;> simp

lemma standard_deviation_of_zero (n : ℕ) : standard_deviation 0 n = 0 := by
  simp [standard_deviation]

lemma handler_of_ssd_zero {s : TraderState} {i : ℕ} {aps bps : List ℤ} {b0 a0 : ℤ} {x : ℚ}
    (hb : bps.head? = some b0) (ha : aps.head? = some a0)
    (hx : newRatioOf (appendPrice s i (newMidpoint b0 a0)) = some x)
    (hssd : (statsUpdate (appendPrice s i (newMidpoint b0 a0)) x).1.standard_deviation_sum = 0) :
    on_order_book_update_message s i aps bps =
      ((statsUpdate (appendPrice s i (newMidpoint b0 a0)) x).1, none) := by
  unfold on_order_book_update_message
  rw [hb, ha]
  simp only [hx]
  rw [if_pos (by rw [hssd, standard_deviation_of_zero])]

/-- C9: a quote event whose counterpart instrument has no recorded midpoint
yet (future update with no ETF midpoints, or the converse), or whose
updated running squared-deviation sum is zero so the standard deviation is
zero (in particular the first ratio sample from the initial statistics),
submits no order and leaves the regime, the gate flags and the position
unchanged; the handler is a total function, so the Python exceptions these
cases raise are confined to the event (the `except` clause only prints).
In the zero-deviation case the handler returns exactly the state with the
statistics updates that precede the z-score division. -/
theorem c9_guard_skips_signal :
    (∀ (s : TraderState) (aps bps : List ℤ), s.etf_price = [] →
      signalFrame s (on_order_book_update_message s 0 aps bps)) ∧
    (∀ (s : TraderState) (i : ℕ) (aps bps : List ℤ), i ≠ 0 → s.future_price = [] →
      signalFrame s (on_order_book_update_message s i aps bps)) ∧
    (∀ (s : TraderState) (i : ℕ) (aps bps : List ℤ) (b0 a0 : ℤ) (x : ℚ),
      bps.head? = some b0 → aps.head? = some a0 →
      newRatioOf (appendPrice s i (newMidpoint b0 a0)) = some x →
      (statsUpdate (appendPrice s i (newMidpoint b0 a0)) x).1.standard_deviation_sum = 0 →
      on_order_book_update_message s i aps bps =
          ((statsUpdate (appendPrice s i (newMidpoint b0 a0)) x).1, none) ∧
        signalFrame s (on_order_book_update_message s i aps bps)) ∧
    (∀ (s : TraderState) (i : ℕ) (aps bps : List ℤ),
      s.ratios = [] → s.ratios_sum = 0 → s.standard_deviation_sum = 0 →
      signalFrame s (on_order_book_update_message s i aps bps)) := by
  have hframe : ∀ (s : TraderState) (i : ℕ) (m : ℚ) (x : ℚ),
      signalFrame s ((statsUpdate (appendPrice s i m) x).1, none) := by
    intro s i m x
    obtain ⟨a1, a2, a3, a4, _, _, _⟩ := appendPrice_frame s i m
    obtain ⟨b1, b2, b3, b4⟩ := statsUpdate_frame (appendPrice s i m) x
    exact ⟨rfl, b1.trans a1, b2.trans a2, b3.trans a3, b4.trans a4⟩
  have happend : ∀ (s : TraderState) (i : ℕ) (m : ℚ),
      signalFrame s (appendPrice s i m, none) := by
    intro s i m
    obtain ⟨a1, a2, a3, a4, _, _, _⟩ := appendPrice_frame s i m
    exact ⟨rfl, a1, a2, a3, a4⟩
  refine ⟨fun s aps bps h => ?_, fun s i aps bps hi h => ?_,
    fun s i aps bps b0 a0 x hb ha hx hssd => ?_, fun s i aps bps h1 h2 h3 => ?_⟩
  · unfold on_order_book_update_message
    rcases hbb : bps.head? with _ | b0 <;> rcases haa : aps.head? with _ | a0 <;>
      try exact ⟨rfl, rfl, rfl, rfl, rfl⟩
    have he : (appendPrice s 0 (newMidpoint b0 a0)).etf_price = [] := by
      simp [appendPrice, h]
    have hr : newRatioOf (appendPrice s 0 (newMidpoint b0 a0)) = none := by
      rw [newRatioOf, he]
      simp
    simp only [hr]
    exact happend s 0 (newMidpoint b0 a0)
  · unfold on_order_book_update_message
    rcases hbb : bps.head? with _ | b0 <;> rcases haa : aps.head? with _ | a0 <;>
      try exact ⟨rfl, rfl, rfl, rfl, rfl⟩
    have he : (appendPrice s i (newMidpoint b0 a0)).future_price = [] := by
      simp [appendPrice, hi, h]
    have hr : newRatioOf (appendPrice s i (newMidpoint b0 a0)) = none := by
      rw [newRatioOf, he]
      simp
    simp only [hr]
    exact happend s i (newMidpoint b0 a0)
  · have heq := handler_of_ssd_zero hb ha hx hssd
    refine ⟨heq, ?_⟩
    rw [heq]
    exact hframe s i (newMidpoint b0 a0) x
  · unfold on_order_book_update_message
    rcases hbb : bps.head? with _ | b0 <;> rcases haa : aps.head? with _ | a0 <;>
      try exact ⟨rfl, rfl, rfl, rfl, rfl⟩
    rcases hr : newRatioOf (appendPrice s i (newMidpoint b0 a0)) with _ | x
    · simp only [hr]
      exact happend s i (newMidpoint b0 a0)
    · have hssd : (statsUpdate (appendPrice s i (newMidpoint b0 a0)) x).1.standard_deviation_sum
          = 0 := by
        obtain ⟨_, _, _, _, r5, r6, r7⟩ := appendPrice_frame s i (newMidpoint b0 a0)
        simp [statsUpdate, r5, r6, r7, h1, h2, h3]
      simp only [hr]
      rw [if_pos (by rw [hssd, standard_deviation_of_zero])]
      exact hframe s i (newMidpoint b0 a0) x

/-- A state that has one ETF midpoint recorded and no ratio samples yet. -/
def firstSampleState : TraderState :=
  { initialState with etf_price := [50] }

/-- C9 witness: the guard theorem applied to a concrete first quote update
(no counterpart midpoint) and to a concrete first ratio sample (zero
standard deviation). -/
theorem c9_guard_skips_signal_witness :
    signalFrame initialState (on_order_book_update_message initialState 0 [10000] [10000]) ∧
      signalFrame firstSampleState
        (on_order_book_update_message firstSampleState 0 [10000] [10000]) :=
  ⟨c9_guard_skips_signal.1 initialState [10000] [10000] rfl,
   c9_guard_skips_signal.2.2.2 firstSampleState 0 [10000] [10000] rfl rfl rfl⟩

/-! ### Claim C4 -/

/-- Exactly one of the two trough flags is set. -/
def oneTroph (s : TraderState) : Prop :=
  (s.BuyingTroph = true ∧ s.SellingTroph = false) ∨
    (s.BuyingTroph = false ∧ s.SellingTroph = true)

lemma zStep_oneTroph {α : Type} [LinearOrderedField α] [FloorRing α]
    (s : TraderState) (z : α) (a b : ℤ) (h : oneTroph s) : oneTroph (zStep s z a b).1 := by
  obtain ⟨hB, hS⟩ := gateUpdate_regime (troughUpdate s z) z a b
  unfold oneTroph at *
  rw [zStep, hB, hS]
  unfold troughUpdate
  split_ifs <;> simp [h]

lemma troughUpdate_stay_selling {s : TraderState} {z : ℚ}
    (h : oneTroph s) (hS : s.SellingTroph = true) (hz : 0 ≤ z) :
    troughUpdate s z = s := by
  have hB : s.BuyingTroph = false := by
    rcases h with ⟨_, h2⟩ | ⟨h1, _⟩
    · rw [hS] at h2
      exact absurd h2 (by simp)
    · exact h1
  unfold troughUpdate
  rw [if_neg fun hc => absurd hc.1 (not_lt.mpr hz),
    if_neg fun hc => by rw [hB] at hc; exact absurd hc.2 (by simp)]

lemma troughUpdate_stay_buying {s : TraderState} {z : ℚ}
    (h : oneTroph s) (hB : s.BuyingTroph = true) (hz : z ≤ 0) :
    troughUpdate s z = s := by
  have hS : s.SellingTroph = false := by
    rcases h with ⟨_, h2⟩ | ⟨h1, _⟩
    · exact h2
    · rw [hB] at h1
      exact absurd h1 (by simp)
  unfold troughUpdate
  rw [if_neg fun hc => by rw [hS] at hc; exact absurd hc.2 (by simp),
    if_neg fun hc => absurd hc.1 (not_lt.mpr hz)]

lemma zStep_stay_selling {s : TraderState} {z : ℚ} (a b : ℤ)
    (h : oneTroph s) (hS : s.SellingTroph = true) (hz : 0 ≤ z) :
    (zStep s z a b).1.SellingTroph = true ∧
      (zStep s z a b).1.BuyingTroph = s.BuyingTroph := by
  obtain ⟨hBg, hSg⟩ := gateUpdate_regime (troughUpdate s z) z a b
  rw [zStep, hBg, hSg, troughUpdate_stay_selling h hS hz]
  exact ⟨hS, rfl⟩

lemma zStep_stay_buying {s : TraderState} {z : ℚ} (a b : ℤ)
    (h : oneTroph s) (hB : s.BuyingTroph = true) (hz : z ≤ 0) :
    (zStep s z a b).1.BuyingTroph = true ∧
      (zStep s z a b).1.SellingTroph = s.SellingTroph := by
  obtain ⟨hBg, hSg⟩ := gateUpdate_regime (troughUpdate s z) z a b
  rw [zStep, hBg, hSg, troughUpdate_stay_buying h hB hz]
  exact ⟨hB, rfl⟩

lemma zStep_flip_to_sell {s : TraderState} {z : ℚ} (a b : ℤ)
    (hz : 0 < z) (hB : s.BuyingTroph = true) :
    (zStep s z a b).1.BuyingTroph = false ∧ (zStep s z a b).1.SellingTroph = true := by
  obtain ⟨hBg, hSg⟩ := gateUpdate_regime (troughUpdate s z) z a b
  rw [zStep, hBg, hSg]
  unfold troughUpdate
  rw [if_neg fun hc => absurd hz (not_lt.mpr (le_of_lt hc.1)), if_pos ⟨hz, hB⟩]
  exact ⟨rfl, rfl⟩

lemma zStep_flip_to_buy {s : TraderState} {z : ℚ} (a b : ℤ)
    (hz : z < 0) (hS : s.SellingTroph = true) :
    (zStep s z a b).1.BuyingTroph = true ∧ (zStep s z a b).1.SellingTroph = false := by
  obtain ⟨hBg, hSg⟩ := gateUpdate_regime (troughUpdate s z) z a b
  rw [zStep, hBg, hSg]
  unfold troughUpdate
  rw [if_pos ⟨hz, hS⟩]
  exact ⟨rfl, rfl⟩

lemma handler_oneTroph (s : TraderState) (i : ℕ) (aps bps : List ℤ)
    (h : oneTroph s) : oneTroph (on_order_book_update_message s i aps bps).1 := by
  unfold on_order_book_update_message
  rcases hbb : bps.head? with _ | b0 <;> rcases haa : aps.head? with _ | a0 <;> try exact h
  obtain ⟨a1, a2, _, _, _, _, _⟩ := appendPrice_frame s i (newMidpoint b0 a0)
  have happ : oneTroph (appendPrice s i (newMidpoint b0 a0)) := by
    unfold oneTroph at *
    rw [a1, a2]
    exact h
  rcases hr : newRatioOf (appendPrice s i (newMidpoint b0 a0)) with _ | x
  · simp only [hr]
    exact happ
  · obtain ⟨b1, b2, _, _⟩ := statsUpdate_frame (appendPrice s i (newMidpoint b0 a0)) x
    have hstats : oneTroph (statsUpdate (appendPrice s i (newMidpoint b0 a0)) x).1 := by
      unfold oneTroph at *
      rw [b1, b2]
      exact happ
    simp only [hr]
    split_ifs
    · exact hstats
    · exact zStep_oneTroph _ _ _ _ hstats

/-- C4: the regime starts as the buying trough; every event handler keeps
exactly one of the two trough flags set (the signal step for any z-score in
any ordered field, the full quote handler, and the fill, status, error and
hedge callbacks, which never touch the flags); from the selling trough a
nonnegative z-score causes no transition (switching to buying requires
`z < 0`), from the buying trough a nonpositive z-score causes no transition
(switching to selling requires `z > 0`) — in particular `z = 0` never
transitions; and on two consecutive same-sign z-scores the regime never
flips twice. -/
theorem c4_regime_hysteresis :
    (initialState.BuyingTroph = true ∧ initialState.SellingTroph = false) ∧
    (∀ (α : Type) [LinearOrderedField α] [FloorRing α]
        (s : TraderState) (z : α) (a b : ℤ),
      oneTroph s → oneTroph (zStep s z a b).1) ∧
    (∀ (s : TraderState) (i : ℕ) (aps bps : List ℤ),
      oneTroph s → oneTroph (on_order_book_update_message s i aps bps).1) ∧
    (∀ (s : TraderState) (id : ℕ) (p : ℤ) (v : ℕ),
      (on_order_filled_message s id p v).1.BuyingTroph = s.BuyingTroph ∧
        (on_order_filled_message s id p v).1.SellingTroph = s.SellingTroph) ∧
    (∀ (s : TraderState) (id fv rv : ℕ) (fees : ℤ),
      (on_order_status_message s id fv rv fees).BuyingTroph = s.BuyingTroph ∧
        (on_order_status_message s id fv rv fees).SellingTroph = s.SellingTroph) ∧
    (∀ (s : TraderState) (id : ℕ),
      (on_error_message s id).BuyingTroph = s.BuyingTroph ∧
        (on_error_message s id).SellingTroph = s.SellingTroph) ∧
    (∀ (s : TraderState) (id : ℕ) (p : ℤ) (v : ℕ),
      (on_hedge_filled_message s id p v).BuyingTroph = s.BuyingTroph ∧
        (on_hedge_filled_message s id p v).SellingTroph = s.SellingTroph) ∧
    (∀ (s : TraderState) (z : ℚ) (a b : ℤ), oneTroph s → s.SellingTroph = true → 0 ≤ z →
      (zStep s z a b).1.SellingTroph = true ∧
        (zStep s z a b).1.BuyingTroph = s.BuyingTroph) ∧
    (∀ (s : TraderState) (z : ℚ) (a b : ℤ), oneTroph s → s.BuyingTroph = true → z ≤ 0 →
      (zStep s z a b).1.BuyingTroph = true ∧
        (zStep s z a b).1.SellingTroph = s.SellingTroph) ∧
    (∀ (s : TraderState) (z1 z2 : ℚ) (a1 b1 a2 b2 : ℤ), oneTroph s →
      ((0 < z1 ∧ 0 < z2) ∨ (z1 < 0 ∧ z2 < 0)) →
      ¬((zStep s z1 a1 b1).1.BuyingTroph ≠ s.BuyingTroph ∧
        (zStep (zStep s z1 a1 b1).1 z2 a2 b2).1.BuyingTroph ≠
          (zStep s z1 a1 b1).1.BuyingTroph)) := by
  refine ⟨⟨rfl, rfl⟩, fun α inst1 inst2 s z a b h => zStep_oneTroph s z a b h,
    fun s i aps bps h => handler_oneTroph s i aps bps h,
    fun s id p v => ?_, fun s id fv rv fees => ?_, fun s id => ?_,
    fun s id p v => ⟨rfl, rfl⟩,
    fun s z a b h hS hz => zStep_stay_selling a b h hS hz,
    fun s z a b h hB hz => zStep_stay_buying a b h hB hz,
    fun s z1 z2 a1 b1 a2 b2 h hsign => ?_⟩
  · unfold on_order_filled_message
    split_ifs <;> exact ⟨rfl, rfl⟩
  · unfold on_order_status_message
    split_ifs <;> exact ⟨rfl, rfl⟩
  · unfold on_error_message on_order_status_message
    split_ifs <;> exact ⟨rfl, rfl⟩
  · rintro ⟨hflip1, hflip2⟩
    rcases h with ⟨hB, hS⟩ | ⟨hB, hS⟩
    · rcases hsign with ⟨hz1, hz2⟩ | ⟨hz1, hz2⟩
      · obtain ⟨f1, f2⟩ := zStep_flip_to_sell a1 b1 hz1 hB
        have h1 : oneTroph (zStep s z1 a1 b1).1 :=
          zStep_oneTroph s z1 a1 b1 (Or.inl ⟨hB, hS⟩)
        obtain ⟨g1, g2⟩ := zStep_stay_selling a2 b2 h1 f2 (le_of_lt hz2)
        exact hflip2 g2
      · obtain ⟨g1, g2⟩ := zStep_stay_buying a1 b1 (Or.inl ⟨hB, hS⟩) hB (le_of_lt hz1)
        exact hflip1 (g1.trans hB.symm)
    · rcases hsign with ⟨hz1, hz2⟩ | ⟨hz1, hz2⟩
      · obtain ⟨g1, g2⟩ := zStep_stay_selling a1 b1 (Or.inr ⟨hB, hS⟩) hS (le_of_lt hz1)
        exact hflip1 g2
      · obtain ⟨f1, f2⟩ := zStep_flip_to_buy a1 b1 hz1 hS
        have h1 : oneTroph (zStep s z1 a1 b1).1 :=
          zStep_oneTroph s z1 a1 b1 (Or.inr ⟨hB, hS⟩)
        obtain ⟨g1, g2⟩ := zStep_stay_buying a2 b2 h1 f1 (le_of_lt hz2)
        exact hflip2 (g1.trans f1.symm)

/-- C4 witness: the hysteresis theorem applied at concrete states and
z-scores. -/
theorem c4_regime_hysteresis_witness :
    oneTroph (zStep initialState (1 : ℚ) 100 100).1 ∧
      oneTroph (on_order_book_update_message initialState 0 [10000] [10000]).1 ∧
      ((zStep c2State (1 : ℚ) 100 100).1.SellingTroph = true ∧
        (zStep c2State (1 : ℚ) 100 100).1.BuyingTroph = c2State.BuyingTroph) ∧
      ((zStep initialState (0 : ℚ) 100 100).1.BuyingTroph = true ∧
        (zStep initialState (0 : ℚ) 100 100).1.SellingTroph = initialState.SellingTroph) ∧
      ¬((zStep initialState (1 : ℚ) 100 100).1.BuyingTroph ≠ initialState.BuyingTroph ∧
        (zStep (zStep initialState (1 : ℚ) 100 100).1 (2 : ℚ) 100 100).1.BuyingTroph ≠
          (zStep initialState (1 : ℚ) 100 100).1.BuyingTroph) :=
  ⟨c4_regime_hysteresis.2.1 ℚ initialState 1 100 100 (Or.inl ⟨rfl, rfl⟩),
   c4_regime_hysteresis.2.2.1 initialState 0 [10000] [10000] (Or.inl ⟨rfl, rfl⟩),
   c4_regime_hysteresis.2.2.2.2.2.2.2.1 c2State 1 100 100 (Or.inr ⟨rfl, rfl⟩) rfl
     (by norm_num),
   c4_regime_hysteresis.2.2.2.2.2.2.2.2.1 initialState 0 100 100 (Or.inl ⟨rfl, rfl⟩) rfl
     le_rfl,
   c4_regime_hysteresis.2.2.2.2.2.2.2.2.2 initialState 1 2 100 100 100 100
     (Or.inl ⟨rfl, rfl⟩) (Or.inl ⟨by norm_num, by norm_num⟩)⟩

/-! ### Claim C3 -/

lemma runTS_cons (s : TraderState) (e : ℚ × ℤ × ℤ) (es : List (ℚ × ℤ × ℤ)) :
    runTS s (e :: es) =
      zStep s e.1 e.2.1 e.2.2 :: runTS (zStep s e.1 e.2.1 e.2.2).1 es := rfl

lemma emitsAt_eq_false_of_none {σ : Side} {v : ℤ} {r : TraderState × Option Order}
    (h : r.2 = none) : emitsAt σ v r = false := by
  rw [emitsAt, h]

lemma emitsAt_eq_of_some {σ : Side} {v : ℤ} {r : TraderState × Option Order} {ord : Order}
    (h : r.2 = some ord) : emitsAt σ v r = decide (ord.side = σ ∧ ord.volume = v) := by
  rw [emitsAt, h]

lemma runTS_no_emission (σ : Side) (τ : Tier) :
    ∀ (zs : List (ℚ × ℤ × ℤ)) (s : TraderState),
      (∀ r ∈ runTS s zs,
        r.1.BuyingTroph = s.BuyingTroph ∧ r.1.SellingTroph = s.SellingTroph) →
      flagOf σ τ s.ActiveOrders = true →
      ordersAt σ (tierVolume τ) (runTS s zs) = 0 := by
  intro zs
  induction zs with
  | nil => intro s _ _; rfl
  | cons e es ih =>
    intro s hreg hflag
    have hmem1 : zStep s e.1 e.2.1 e.2.2 ∈ runTS s (e :: es) := by
      rw [runTS_cons]
      exact List.mem_cons_self _ _
    have hr1 := hreg _ hmem1
    obtain ⟨hgB, hgS⟩ := gateUpdate_regime (troughUpdate s e.1) e.1 e.2.1 e.2.2
    have htr : troughUpdate s e.1 = s :=
      troughUpdate_id_of_regime_eq (hgB.symm.trans hr1.1) (hgS.symm.trans hr1.2)
    have hz : zStep s e.1 e.2.1 e.2.2 = gateUpdate s e.1 e.2.1 e.2.2 := by
      rw [zStep, htr]
    have hflag1 : flagOf σ τ (zStep s e.1 e.2.1 e.2.2).1.ActiveOrders = true := by
      rw [hz]
      exact gateUpdate_flag_mono σ τ s e.1 e.2.1 e.2.2 hflag
    have hregtail : ∀ r ∈ runTS (zStep s e.1 e.2.1 e.2.2).1 es,
        r.1.BuyingTroph = (zStep s e.1 e.2.1 e.2.2).1.BuyingTroph ∧
          r.1.SellingTroph = (zStep s e.1 e.2.1 e.2.2).1.SellingTroph := by
      intro r hr
      have hmem := hreg r (by rw [runTS_cons]; exact List.mem_cons_of_mem _ hr)
      rw [hr1.1, hr1.2]
      exact hmem
    have htail := ih (zStep s e.1 e.2.1 e.2.2).1 hregtail hflag1
    have hhead : emitsAt σ (tierVolume τ) (zStep s e.1 e.2.1 e.2.2) = false := by
      cases ho : (zStep s e.1 e.2.1 e.2.2).2 with
      | none => exact emitsAt_eq_false_of_none ho
      | some ord =>
        rw [emitsAt_eq_of_some ho]
        by_cases hp : ord.side = σ ∧ ord.volume = tierVolume τ
        · rw [hz] at ho
          obtain ⟨hfalse, _⟩ := gateUpdate_emit ho hp.1 hp.2
          rw [hflag] at hfalse
          exact absurd hfalse (by simp)
        · exact decide_eq_false hp
    rw [ordersAt, runTS_cons, List.countP_cons, hhead]
    rw [ordersAt] at htail
    rw [htail]
    simp

/-- C3: within a single trough — a run of quote events over which the two
regime flags stay constant (constancy over the post-event states lets the
run begin with the event that enters the trough) — at most one order is
submitted for any given side and tier volume, for every z-score sequence
and every starting state. -/
theorem c3_at_most_one_order_per_tier :
    ∀ (zs : List (ℚ × ℤ × ℤ)) (s : TraderState) (σ : Side) (τ : Tier) (bB bS : Bool),
      (∀ r ∈ runTS s zs, r.1.BuyingTroph = bB ∧ r.1.SellingTroph = bS) →
      ordersAt σ (tierVolume τ) (runTS s zs) ≤ 1 := by
  intro zs
  induction zs with
  | nil => intro s σ τ bB bS _; simp [runTS, ordersAt]
  | cons e es ih =>
    intro s σ τ bB bS hreg
    have hmem1 : zStep s e.1 e.2.1 e.2.2 ∈ runTS s (e :: es) := by
      rw [runTS_cons]
      exact List.mem_cons_self _ _
    have hr1 := hreg _ hmem1
    have hregtail : ∀ r ∈ runTS (zStep s e.1 e.2.1 e.2.2).1 es,
        r.1.BuyingTroph = bB ∧ r.1.SellingTroph = bS := by
      intro r hr
      exact hreg r (by rw [runTS_cons]; exact List.mem_cons_of_mem _ hr)
    have hregtail' : ∀ r ∈ runTS (zStep s e.1 e.2.1 e.2.2).1 es,
        r.1.BuyingTroph = (zStep s e.1 e.2.1 e.2.2).1.BuyingTroph ∧
          r.1.SellingTroph = (zStep s e.1 e.2.1 e.2.2).1.SellingTroph := by
      intro r hr
      rw [hr1.1, hr1.2]
      exact hregtail r hr
    rw [ordersAt, runTS_cons, List.countP_cons]
    cases ho : (zStep s e.1 e.2.1 e.2.2).2 with
    | none =>
      have htail := ih (zStep s e.1 e.2.1 e.2.2).1 σ τ bB bS hregtail
      rw [ordersAt] at htail
      rw [emitsAt_eq_false_of_none ho]
      simpa using htail
    | some ord =>
      by_cases hp : ord.side = σ ∧ ord.volume = tierVolume τ
      · have hflag1 : flagOf σ τ (zStep s e.1 e.2.1 e.2.2).1.ActiveOrders = true :=
          (gateUpdate_emit (s := troughUpdate s e.1) ho hp.1 hp.2).2
        have h0 := runTS_no_emission σ τ es (zStep s e.1 e.2.1 e.2.2).1 hregtail' hflag1
        rw [ordersAt] at h0
        rw [h0, emitsAt_eq_of_some ho]
        simp [hp]
      · have htail := ih (zStep s e.1 e.2.1 e.2.2).1 σ τ bB bS hregtail
        rw [ordersAt] at htail
        rw [emitsAt_eq_of_some ho, decide_eq_false hp]
        simpa using htail

/-- C3 witness: a one-event trough run from the initial state (z-score -2
keeps the buying trough), counted at the strong buy tier. -/
theorem c3_at_most_one_order_per_tier_witness :
    ordersAt Side.BUY (tierVolume Tier.Strong)
      (runTS initialState [((-2 : ℚ), 100, 100)]) ≤ 1 :=
  c3_at_most_one_order_per_tier [((-2 : ℚ), 100, 100)] initialState Side.BUY Tier.Strong
    true false
    (by
      intro r hr
      rw [runTS_cons] at hr
      have hr' : r = zStep initialState ((-2 : ℚ), (100 : ℤ), (100 : ℤ)).1
          ((-2 : ℚ), (100 : ℤ), (100 : ℤ)).2.1 ((-2 : ℚ), (100 : ℤ), (100 : ℤ)).2.2 := by
        simpa [runTS] using hr
      subst hr'
      have htr : troughUpdate initialState (((-2 : ℚ), (100 : ℤ), (100 : ℤ)).1)
          = initialState :=
        troughUpdate_stay_buying (Or.inl ⟨rfl, rfl⟩) rfl (by norm_num)
      obtain ⟨hgB, hgS⟩ :=
        gateUpdate_regime (troughUpdate initialState (((-2 : ℚ), (100 : ℤ), (100 : ℤ)).1))
          (((-2 : ℚ), (100 : ℤ), (100 : ℤ)).1) (((-2 : ℚ), (100 : ℤ), (100 : ℤ)).2.1)
          (((-2 : ℚ), (100 : ℤ), (100 : ℤ)).2.2)
      exact ⟨by rw [zStep, hgB, htr]; rfl, by rw [zStep, hgS, htr]; rfl⟩)
